import Mathlib

/-!
Shallow embedding of `include/range/v3/utility/iterator_concepts.hpp` (range-v3,
2014-era): the iterator capability-tag lattice, the std/ranges tag mappings, the
iterator concept hierarchy with its most-refined selector, the indirect
transfer concepts, the indirect-invokable composite constraints, and the
iterator-range pairing concepts.

Compile-time C++ template machinery is embedded as executable Lean functions:
type-level mappings become functions on inductive codes for the relevant types,
concept checks become Boolean predicates over a descriptor of the candidate
type's observable features, and collaborator concepts from headers outside this
file (concepts.hpp, invokable.hpp, meta.hpp) appear either as abstract world
parameters or, where their behaviour decides a property, as definitions
modelled from the specification's contract for them.
-/

/-- The five native iterator capability tags declared at the top of the header:
`weak_input_iterator_tag < input_iterator_tag < forward_iterator_tag <
bidirectional_iterator_tag < random_access_iterator_tag`, each deriving from
the previous. -/
inductive NativeTag : Type where
  | weakInput : NativeTag
  | input : NativeTag
  | forward : NativeTag
  | bidirectional : NativeTag
  | randomAccess : NativeTag
deriving DecidableEq, Repr

/-- The four external (std) iterator category tags this header maps to and
from: `std::input_iterator_tag`, `std::forward_iterator_tag`,
`std::bidirectional_iterator_tag`, `std::random_access_iterator_tag`. -/
inductive StdTag : Type where
  | input : StdTag
  | forward : StdTag
  | bidirectional : StdTag
  | randomAccess : StdTag
deriving DecidableEq, Repr

/-- Position of a native tag in the derivation chain (weak-input lowest). -/
def NativeTag.rank : NativeTag → Nat
  | NativeTag.weakInput => 0
  | NativeTag.input => 1
  | NativeTag.forward => 2
  | NativeTag.bidirectional => 3
  | NativeTag.randomAccess => 4

/-- Position of a std tag in the std derivation chain, aligned with the
native ranks (std input sits at the level of native input). -/
def StdTag.rank : StdTag → Nat
  | StdTag.input => 1
  | StdTag.forward => 2
  | StdTag.bidirectional => 3
  | StdTag.randomAccess => 4

/-- A code for the C++ types that can appear where a tag type is expected:
one of the native ranges tags, one of the std tags, or any other type
(identified by an opaque index). `as_ranges_iterator_category`'s primary
template accepts an arbitrary type, so the domain must be wider than the
tags themselves. -/
inductive CxxTy : Type where
  | nativeTag : NativeTag → CxxTy
  | stdTag : StdTag → CxxTy
  | otherTy : Nat → CxxTy
deriving DecidableEq, Repr

/-- `detail::as_ranges_iterator_category<T>`: the four specializations map each
std tag to the same-named native ranges tag; the primary template defines
`type = T`, i.e. every other type (including the native tags themselves) is
passed through unchanged. The `Option` records whether the nested `type`
alias exists; with the identity primary template it always does. -/
def as_ranges_iterator_category : CxxTy → Option CxxTy
  | CxxTy.stdTag StdTag.input => some (CxxTy.nativeTag NativeTag.input)
  | CxxTy.stdTag StdTag.forward => some (CxxTy.nativeTag NativeTag.forward)
  | CxxTy.stdTag StdTag.bidirectional => some (CxxTy.nativeTag NativeTag.bidirectional)
  | CxxTy.stdTag StdTag.randomAccess => some (CxxTy.nativeTag NativeTag.randomAccess)
  | t => some t

/-- The same-named native tag for each external (std) tag, as the
specification's `ToNativeTag` describes the four recognized cases. -/
def stdToNative : StdTag → NativeTag
  | StdTag.input => NativeTag.input
  | StdTag.forward => NativeTag.forward
  | StdTag.bidirectional => NativeTag.bidirectional
  | StdTag.randomAccess => NativeTag.randomAccess

/-- Kind of reference a C++ type expression is (for `std::is_reference`). -/
inductive Ref : Type where
  | noRef : Ref
  | lval : Ref
  | rval : Ref
deriving DecidableEq, Repr

/-- A possibly cv- and reference-qualified C++ type: a core type code plus
top-level qualifiers. When `ref` is not `noRef`, the cv flags qualify the
referred-to type, as in `T const &`. -/
structure QualTy : Type where
  core : CxxTy
  isConst : Bool
  isVolatile : Bool
  ref : Ref
deriving DecidableEq, Repr

/-- `std::is_reference<T>::value` on the embedded qualified types. -/
def is_reference (q : QualTy) : Bool := q.ref != Ref.noRef

/-- `detail::as_std_iterator_category<Tag, Reference>`: declared but undefined
for `weak_input_iterator_tag` (no nested `type`, hence `none`); maps
`input_iterator_tag` to `std::input_iterator_tag` unconditionally; and for the
forward, bidirectional and random-access tags yields the same-named std tag
when `std::is_reference<Reference>` holds, and `std::input_iterator_tag`
otherwise. -/
def as_std_iterator_category : NativeTag → QualTy → Option StdTag
  | NativeTag.weakInput, _ => none
  | NativeTag.input, _ => some StdTag.input
  | NativeTag.forward, r =>
      if is_reference r then some StdTag.forward else some StdTag.input
  | NativeTag.bidirectional, r =>
      if is_reference r then some StdTag.bidirectional else some StdTag.input
  | NativeTag.randomAccess, r =>
      if is_reference r then some StdTag.randomAccess else some StdTag.input

/-- A code for candidate C++ types fed to the associated-type extractions
`detail::pointer_type` / `detail::iterator_category_type`: a raw pointer
(`T *`, with the pointee named by an index), a class type carrying the return
type of its `operator->` when it has one and its `iterator_category` member
alias when it declares one, or any other (non-class, non-pointer) type. -/
inductive Ty : Type where
  | ptr : Nat → Ty
  | cls : Option Ty → Option CxxTy → Ty
  | scalar : Nat → Ty

/-- A possibly cv- and reference-qualified candidate type, as handed to the
public extraction templates. -/
structure QualCand : Type where
  core : Ty
  isConst : Bool
  isVolatile : Bool
  ref : Ref

/-- `uncvref_t<T>` = `remove_cv<remove_reference<T>>::type`: strip the
top-level reference, then the top-level cv qualifiers, leaving the core. -/
def uncvref_t (q : QualCand) : Ty := q.core

namespace detail

/-- `detail::pointer_type<T>`: for `T *` the result is `T *` itself; for a
class type the result is the return type of `T::operator->()` when that
expression is well-formed (the primary template has no `type` otherwise);
for everything else there is no result. -/
def pointer_type : Ty → Option Ty
  | Ty.ptr n => some (Ty.ptr n)
  | Ty.cls arrow _ => arrow
  | Ty.scalar _ => none

/-- `detail::iterator_category_type<T>`: for `T *` the result is
`ranges::random_access_iterator_tag`; for a type declaring an
`iterator_category` member alias the result is that alias translated through
`as_ranges_iterator_category`; otherwise there is no result. -/
def iterator_category_type : Ty → Option CxxTy
  | Ty.ptr _ => some (CxxTy.nativeTag NativeTag.randomAccess)
  | Ty.cls _ (some c) => as_ranges_iterator_category c
  | Ty.cls _ none => none
  | Ty.scalar _ => none

end detail

/-- Public `ranges::pointer_type<T>`: dispatches to the detail extraction on
`uncvref_t<T>`. -/
def pointer_type (q : QualCand) : Option Ty :=
  detail.pointer_type (uncvref_t q)

/-- Public `ranges::iterator_category_type<T>`: dispatches to the detail
extraction on `uncvref_t<T>`. -/
def iterator_category_type (q : QualCand) : Option CxxTy :=
  detail.iterator_category_type (uncvref_t q)

/-- Wraps a bare core type as an unqualified candidate (no cv, no ref). -/
def plainCand (t : Ty) : QualCand :=
  { core := t, isConst := false, isVolatile := false, ref := Ref.noRef }

/-- `Derived<T, Tag>` where `Tag` is one of the native ranges tags: whether
type `T` is (the same as or) derived from `Tag`. The native tags form a single
inheritance chain, so a native tag derives from every native tag of lower or
equal rank; std tags and other types derive from no native tag. -/
def derivesFrom : CxxTy → NativeTag → Bool
  | CxxTy.nativeTag r, tag => decide (NativeTag.rank tag ≤ NativeTag.rank r)
  | CxxTy.stdTag _, _ => false
  | CxxTy.otherTy _, _ => false

/-- Descriptor of a candidate iterator type `I`: one Boolean per requirement
checked by the concept definitions of the header, plus the computed category
tag. Collaborator concepts from concepts.hpp (SemiRegular, Regular, Copyable,
EqualityComparable, TotallyOrdered, the CommonReference checks inside
Readable) are recorded as the candidate's observable features. A field is
`false` whenever the corresponding expression fails to compile for `I`
(substitution failure makes the enclosing concept unsatisfied). -/
structure TypeDesc : Type where
  /-- `concepts::SemiRegular` holds for `I`. -/
  semiRegular : Bool
  /-- `concepts::Regular` holds for `I`. -/
  regular : Bool
  /-- `concepts::Copyable` holds for `I`. -/
  copyable : Bool
  /-- `concepts::EqualityComparable` holds for `I`. -/
  equalityComparable : Bool
  /-- `concepts::TotallyOrdered` holds for `I`. -/
  totallyOrdered : Bool
  /-- `CommonReference<reference_t<I> &&, value_t<I> &>` (in `Readable`). -/
  crRefVal : Bool
  /-- `CommonReference<reference_t<I> &&, rvalue_reference_t<I> &&>`. -/
  crRefRval : Bool
  /-- `CommonReference<rvalue_reference_t<I> &&, value_t<I> const &>`. -/
  crRvalVal : Bool
  /-- `same_type(indirect_move(i), indirect_move(i, *i))` (in `Readable`). -/
  indirectMoveConsistent : Bool
  /-- `difference_t<I>` exists and `std::is_integral` holds for it. -/
  diffTypeIntegral : Bool
  /-- `++i` is well-formed with type `I &`. -/
  preIncRetSelfRef : Bool
  /-- `i++` is well-formed (return type unconstrained here). -/
  postIncValid : Bool
  /-- `i++` has type `I` exactly (checked by `Incrementable`). -/
  postIncRetSelf : Bool
  /-- `*i` is well-formed (checked by `WeakIterator`). -/
  derefValid : Bool
  /-- `category_t<I>` = `meta::eval<iterator_category_type<I>>`, `none` when
  that extraction is ill-formed. -/
  category : Option CxxTy
  /-- the type of `i++` models `Readable` (checked by `WeakInputIterator`). -/
  postIncReadable : Bool
  /-- `--i` is well-formed with type `I &`. -/
  preDecRetSelfRef : Bool
  /-- `i--` has type `I` exactly. -/
  postDecRetSelf : Bool
  /-- `same_type(*i, *i--)` (checked by `BidirectionalIterator`). -/
  derefPostDecSame : Bool
  /-- `i - i` models `SignedIntegral`. -/
  diffSignedIntegral : Bool
  /-- `i - i` has type `difference_t<I>` exactly. -/
  diffIsDifferenceType : Bool
  /-- `i + (i - i)` has type `I`. -/
  addDiffRetSelf : Bool
  /-- `(i - i) + i` has type `I`. -/
  diffAddRetSelf : Bool
  /-- `i - (i - i)` has type `I`. -/
  subDiffRetSelf : Bool
  /-- `i += (i - i)` has type `I &`. -/
  plusAssignRetSelfRef : Bool
  /-- `i -= (i - i)` has type `I &`. -/
  minusAssignRetSelfRef : Bool
  /-- `i[i - i]` is convertible to `common_reference_t<I>`. -/
  indexConvertibleCommonRef : Bool

/-- `Derived<category_t<I>, tag>`: false when `category_t<I>` is ill-formed. -/
def categoryDerivesFrom (t : TypeDesc) (tag : NativeTag) : Bool :=
  match t.category with
  | some c => derivesFrom c tag
  | none => false

/-- `concepts::Readable`: refines `SemiRegular`; requires the three
CommonReference relations among the reference, value and rvalue-reference
types, and agreement of the one- and two-argument `indirect_move` forms. -/
def Readable (t : TypeDesc) : Bool :=
  t.semiRegular && t.crRefVal && t.crRefRval && t.crRvalVal &&
    t.indirectMoveConsistent

/-- `concepts::WeaklyIncrementable`: refines `SemiRegular`; requires an
integral `difference_t`, `++i : I &`, and a well-formed `i++`. -/
def WeaklyIncrementable (t : TypeDesc) : Bool :=
  t.semiRegular && t.diffTypeIntegral && t.preIncRetSelfRef && t.postIncValid

/-- `concepts::Incrementable`: refines `Regular` and `WeaklyIncrementable`;
requires `i++ : I`. -/
def Incrementable (t : TypeDesc) : Bool :=
  t.regular && WeaklyIncrementable t && t.postIncRetSelf

/-- `concepts::WeakIterator`: refines `WeaklyIncrementable` and `Copyable`;
requires `*i` well-formed. -/
def WeakIterator (t : TypeDesc) : Bool :=
  WeaklyIncrementable t && t.copyable && t.derefValid

/-- `concepts::Iterator`: refines `WeakIterator` and `EqualityComparable`. -/
def Iterator (t : TypeDesc) : Bool :=
  WeakIterator t && t.equalityComparable

/-- `concepts::WeakInputIterator`: refines `WeakIterator` and `Readable`;
requires `category_t<I>` derived from `weak_input_iterator_tag` and the type
of `i++` to be `Readable`. -/
def WeakInputIterator (t : TypeDesc) : Bool :=
  WeakIterator t && Readable t &&
    categoryDerivesFrom t NativeTag.weakInput && t.postIncReadable

/-- `concepts::InputIterator`: refines `WeakInputIterator`, `Iterator` and
`EqualityComparable`; requires `category_t<I>` derived from
`input_iterator_tag`. -/
def InputIterator (t : TypeDesc) : Bool :=
  WeakInputIterator t && Iterator t && t.equalityComparable &&
    categoryDerivesFrom t NativeTag.input

/-- `concepts::ForwardIterator`: refines `InputIterator` and `Incrementable`;
requires `category_t<I>` derived from `forward_iterator_tag`. -/
def ForwardIterator (t : TypeDesc) : Bool :=
  InputIterator t && Incrementable t &&
    categoryDerivesFrom t NativeTag.forward

/-- `concepts::BidirectionalIterator`: refines `ForwardIterator`; requires
`category_t<I>` derived from `bidirectional_iterator_tag` and the decrement
expressions. -/
def BidirectionalIterator (t : TypeDesc) : Bool :=
  ForwardIterator t && categoryDerivesFrom t NativeTag.bidirectional &&
    t.preDecRetSelfRef && t.postDecRetSelf && t.derefPostDecSame

/-- `concepts::RandomAccessIterator`: refines `BidirectionalIterator` and
`TotallyOrdered`; requires `category_t<I>` derived from
`random_access_iterator_tag` and the difference-arithmetic expressions. -/
def RandomAccessIterator (t : TypeDesc) : Bool :=
  BidirectionalIterator t && t.totallyOrdered &&
    categoryDerivesFrom t NativeTag.randomAccess &&
    t.diffSignedIntegral && t.diffIsDifferenceType &&
    t.addDiffRetSelf && t.diffAddRetSelf && t.subDiffRetSelf &&
    t.plusAssignRetSelfRef && t.minusAssignRetSelfRef &&
    t.indexConvertibleCommonRef

/-- Names for the five concept definitions listed by `iterator_concept`. -/
inductive IterConcept : Type where
  | randomAccess : IterConcept
  | bidirectional : IterConcept
  | forward : IterConcept
  | input : IterConcept
  | weakInput : IterConcept
deriving DecidableEq, Repr

/-- `concepts::models<C, I>` for the five iterator tier concepts. -/
def conceptModels : IterConcept → TypeDesc → Bool
  | IterConcept.randomAccess, t => RandomAccessIterator t
  | IterConcept.bidirectional, t => BidirectionalIterator t
  | IterConcept.forward, t => ForwardIterator t
  | IterConcept.input, t => InputIterator t
  | IterConcept.weakInput, t => WeakInputIterator t

/-- Modelled from the spec: `concepts::most_refined` (concepts.hpp, not under
src/) — "given an ordered priority list of capability definitions and a
candidate type, evaluate in priority order and return the first satisfied
definition, or ill-formed if none match" (§4.4, §6 "evaluate first match").
`none` stands for the ill-formed (no nested type) outcome. -/
def most_refined (cs : List IterConcept) (t : TypeDesc) : Option IterConcept :=
  cs.find? (fun c => conceptModels c t)

/-- `ranges::iterator_concept<T>`: most-refined over the list
RandomAccessIterator, BidirectionalIterator, ForwardIterator, InputIterator,
WeakInputIterator, in that order. -/
def iterator_concept (t : TypeDesc) : Option IterConcept :=
  most_refined
    [IterConcept.randomAccess, IterConcept.bidirectional, IterConcept.forward,
      IterConcept.input, IterConcept.weakInput] t

/-- `ranges::SinglePass<I>` = `fast_and<WeakInputIterator<I>,
not_<ForwardIterator<I>>>`. -/
def SinglePass (t : TypeDesc) : Bool :=
  WeakInputIterator t && !(ForwardIterator t)

/-- World of collaborator facts for the indirect transfer concepts
(`IndirectlyMovable` / `IndirectlyCopyable`), over a universe `τ` of type
codes. The fields are the associated-type computations of `Readable`, the
decoration operators a C++ type expression can carry, and the collaborator
concepts from concepts.hpp, all left abstract since their definitions live
outside this header. -/
structure TransferWorld (τ : Type) : Type where
  /-- `concepts::SemiRegular<T>`. -/
  SemiRegular : τ → Bool
  /-- `concepts::models<concepts::Readable, T>`. -/
  readableOk : τ → Bool
  /-- `Readable::value_t<T>`. -/
  value_t : τ → τ
  /-- `Readable::reference_t<T>`. -/
  reference_t : τ → τ
  /-- `Readable::rvalue_reference_t<T>`. -/
  rvalue_reference_t : τ → τ
  /-- `Readable::common_reference_t<T>`. -/
  common_reference_t : τ → τ
  /-- the decorated type `T &&`. -/
  rref : τ → τ
  /-- the decorated type `T const &`. -/
  constLref : τ → τ
  /-- `concepts::Convertible<From, To>`. -/
  Convertible : τ → τ → Bool
  /-- `concepts::RegularInvokable<P, A>`. -/
  RegularInvokable : τ → τ → Bool
  /-- `concepts::Invokable::result_t<P, A>`. -/
  result_t : τ → τ → τ
  /-- `concepts::MoveWritable<O, T>`. -/
  MoveWritable : τ → τ → Bool
  /-- `concepts::Writable<O, T>`. -/
  Writable : τ → τ → Bool

/-- `concepts::IndirectlyMovable<I, O, P>`: `I` is `Readable`, `O` is
`SemiRegular`, `rvalue_reference_t<I> &&` converts to `value_t<I>`, the
projection is invocable on `rvalue_reference_t<I> &&` and `value_t<I> &&`,
and `O` is `MoveWritable` from the projected result of each. -/
def IndirectlyMovable {τ : Type} (w : TransferWorld τ) (I O P : τ) : Bool :=
  w.readableOk I && w.SemiRegular O &&
    w.Convertible (w.rref (w.rvalue_reference_t I)) (w.value_t I) &&
    w.RegularInvokable P (w.rref (w.rvalue_reference_t I)) &&
    w.RegularInvokable P (w.rref (w.value_t I)) &&
    w.MoveWritable O (w.result_t P (w.rref (w.rvalue_reference_t I))) &&
    w.MoveWritable O (w.result_t P (w.rref (w.value_t I)))

/-- `concepts::IndirectlyCopyable<I, O, P>`: refines `IndirectlyMovable`
(whose requirements are re-checked by `models`), and additionally requires
`I` `Readable`, `O` `SemiRegular`, `reference_t<I>` convertible to
`value_t<I>`, the projection invocable on `reference_t<I> &&`,
`common_reference_t<I> &&` and `value_t<I> const &`, and `O` `Writable` from
the projected result of each. -/
def IndirectlyCopyable {τ : Type} (w : TransferWorld τ) (I O P : τ) : Bool :=
  IndirectlyMovable w I O P &&
    (w.readableOk I && w.SemiRegular O &&
      w.Convertible (w.reference_t I) (w.value_t I) &&
      w.RegularInvokable P (w.rref (w.reference_t I)) &&
      w.RegularInvokable P (w.rref (w.common_reference_t I)) &&
      w.RegularInvokable P (w.constLref (w.value_t I)) &&
      w.Writable O (w.result_t P (w.rref (w.reference_t I))) &&
      w.Writable O (w.result_t P (w.rref (w.common_reference_t I))) &&
      w.Writable O (w.result_t P (w.constLref (w.value_t I))))

/-- World of collaborator facts for the indirect-invokable composite
constraints, over a universe `τ` of type codes: the associated types of
`Readable`, the invocation result-type computation, the invocability
queries, and the CommonReference queries at the arities used. -/
structure InvokeWorld (τ : Type) : Type where
  /-- the default projection type `ident`. -/
  identTy : τ
  /-- `Readable::value_t<T>`. -/
  value_t : τ → τ
  /-- `Readable::reference_t<T>`. -/
  reference_t : τ → τ
  /-- `Readable::common_reference_t<T>`. -/
  common_reference_t : τ → τ
  /-- `concepts::Invokable::result_t<F, A>` (one argument). -/
  result_t : τ → τ → τ
  /-- `concepts::Invokable::result_t<C, A, B>` (two arguments). -/
  result2_t : τ → τ → τ → τ
  /-- `ranges::Invokable<F, A>`. -/
  Invokable1 : τ → τ → Bool
  /-- `ranges::Invokable<C, A, B>`. -/
  Invokable2 : τ → τ → τ → Bool
  /-- the invocation result is boolean-like (contextually convertible to
  bool), as the predicate/relation substrate requires of results. -/
  boolLike : τ → Bool
  /-- `ranges::CommonReference<A, B, C>` (three types). -/
  CommonReference3 : τ → τ → τ → Bool
  /-- `ranges::CommonReference<A, B, C, D, E>` (five types). -/
  CommonReference5 : τ → τ → τ → τ → τ → Bool

/-- `ranges::IndirectInvokable1<Fun, I, P>`: with `X`, `Y`, `Z` the results
of the projection on the value, reference and common-reference types of `I`,
`Fun` must be invocable on each, and the three results of `Fun` must share a
common reference type. -/
def IndirectInvokable1 {τ : Type} (w : InvokeWorld τ) (F I P : τ) : Bool :=
  let X := w.result_t P (w.value_t I)
  let Y := w.result_t P (w.reference_t I)
  let Z := w.result_t P (w.common_reference_t I)
  w.Invokable1 F X && w.Invokable1 F Y && w.Invokable1 F Z &&
    w.CommonReference3 (w.result_t F X) (w.result_t F Y) (w.result_t F Z)

/-- `ranges::IndirectInvokable2<C, I0, I1, P0, P1>`: with `Xk`, `Yk`, `Zk`
the projected value, reference and common-reference types of source `Ik`,
`C` must be invocable on the five combinations `(X0,X1)`, `(Y0,Y1)`,
`(Z0,Z1)`, `(X0,Y1)`, `(Y0,X1)`, and the five invocation results must share
a common reference type. -/
def IndirectInvokable2 {τ : Type} (w : InvokeWorld τ)
    (C I0 I1 P0 P1 : τ) : Bool :=
  let X0 := w.result_t P0 (w.value_t I0)
  let X1 := w.result_t P1 (w.value_t I1)
  let Y0 := w.result_t P0 (w.reference_t I0)
  let Y1 := w.result_t P1 (w.reference_t I1)
  let Z0 := w.result_t P0 (w.common_reference_t I0)
  let Z1 := w.result_t P1 (w.common_reference_t I1)
  w.Invokable2 C X0 X1 && w.Invokable2 C Y0 Y1 && w.Invokable2 C Z0 Z1 &&
    w.Invokable2 C X0 Y1 && w.Invokable2 C Y0 X1 &&
    w.CommonReference5 (w.result2_t C X0 X1) (w.result2_t C Y0 Y1)
      (w.result2_t C Z0 Z1) (w.result2_t C X0 Y1) (w.result2_t C Y0 X1)

/-- Modelled from the spec: `ranges::InvokableRelation<C, A, B>` comes from
the invocation substrate (invokable.hpp, not under src/); per §4.6 and §6 a
callable is a relation on given argument types when it is invocable on them
and "must return a compatible/boolean-like result". -/
def InvokableRelation {τ : Type} (w : InvokeWorld τ) (C A B : τ) : Bool :=
  w.Invokable2 C A B && w.boolLike (w.result2_t C A B)

/-- `ranges::IndirectInvokableRelation<C, I0, I1, P0, P1>`: each projection
satisfies `IndirectInvokable1` on its own source (with the default `ident`
projection parameter), and `C` satisfies `InvokableRelation` on the five
combinations `(X0,X1)`, `(Y0,Y1)`, `(Z0,Z1)`, `(X0,Y1)`, `(Y0,X1)`. -/
def IndirectInvokableRelation {τ : Type} (w : InvokeWorld τ)
    (C I0 I1 P0 P1 : τ) : Bool :=
  let X0 := w.result_t P0 (w.value_t I0)
  let X1 := w.result_t P1 (w.value_t I1)
  let Y0 := w.result_t P0 (w.reference_t I0)
  let Y1 := w.result_t P1 (w.reference_t I1)
  let Z0 := w.result_t P0 (w.common_reference_t I0)
  let Z1 := w.result_t P1 (w.common_reference_t I1)
  IndirectInvokable1 w P0 I0 w.identTy &&
    IndirectInvokable1 w P1 I1 w.identTy &&
    InvokableRelation w C X0 X1 && InvokableRelation w C Y0 Y1 &&
    InvokableRelation w C Z0 Z1 && InvokableRelation w C X0 Y1 &&
    InvokableRelation w C Y0 X1

/-- World of collaborator facts for the iterator-range pairing concepts, over
a universe `τ` of type codes: the concept queries on cursor and sentinel, the
type of a subtraction expression, and the common-type computation. -/
structure RangeWorld (τ : Type) : Type where
  /-- `concepts::models<concepts::Iterator, I>` (on the descriptor side this
  is the `Iterator` predicate; here it is collaborator data per type code). -/
  iteratorOk : τ → Bool
  /-- `concepts::Regular<S>`. -/
  regularOk : τ → Bool
  /-- `concepts::EqualityComparable<I, S>` (cross-type form). -/
  eqComparable2 : τ → τ → Bool
  /-- `concepts::Integral<T>`. -/
  integralOk : τ → Bool
  /-- The type of the expression `x - y`, where `x : A`, `y : B`, is
  `sub A B`. -/
  sub : τ → τ → τ
  /-- `concepts::Common<I, S>`. -/
  commonOk : τ → τ → Bool
  /-- `common_type_t<I, S>`, `none` when ill-formed. -/
  common_type_t : τ → τ → Option τ

/-- `concepts::IteratorRange<I, S>`: `I` an `Iterator`, `S` `Regular`, and
`I`, `S` cross-equality-comparable. -/
def IteratorRange {τ : Type} (w : RangeWorld τ) (I S : τ) : Bool :=
  w.iteratorOk I && w.regularOk S && w.eqComparable2 I S

/-- The homogeneous `requires_` overload of `concepts::SizedIteratorRange`
(selected when `I` and `S` are the same type), together with the refined
`IteratorRange`: only `s - i` must be `Integral`. -/
def SizedIteratorRangeHomog {τ : Type} (w : RangeWorld τ) (I : τ) : Bool :=
  IteratorRange w I I && w.integralOk (w.sub I I)

/-- `concepts::SizedIteratorRange<I, S>`: refines `IteratorRange`. When
`I = S` (first `requires_` overload, `enable_if is_same`), only
`Integral(s - i)` is required. When `I ≠ S` (second overload, with
`C = common_type_t<I, S>`), the requirements are `SizedIteratorRange<I, I>`,
`Common<I, S>`, `SizedIteratorRange<C, C>` (ill-formed when `common_type_t`
is), `Integral(s - i)`, and `same_type(s - i, i - s)`. -/
def SizedIteratorRange {τ : Type} [DecidableEq τ] (w : RangeWorld τ)
    (I S : τ) : Bool :=
  if I = S then
    SizedIteratorRangeHomog w I
  else
    IteratorRange w I S &&
      SizedIteratorRangeHomog w I &&
      w.commonOk I S &&
      (match w.common_type_t I S with
       | some c => SizedIteratorRangeHomog w c
       | none => false) &&
      w.integralOk (w.sub S I) &&
      decide (w.sub S I = w.sub I S)

/-- Descriptor of a raw pointer type `T *`: every expression requirement
holds and the computed category tag is the native random-access tag (the
pointer specialization of `detail::iterator_category_type`). -/
def rawPointerDesc : TypeDesc where
  semiRegular := true
  regular := true
  copyable := true
  equalityComparable := true
  totallyOrdered := true
  crRefVal := true
  crRefRval := true
  crRvalVal := true
  indirectMoveConsistent := true
  diffTypeIntegral := true
  preIncRetSelfRef := true
  postIncValid := true
  postIncRetSelf := true
  derefValid := true
  category := some (CxxTy.nativeTag NativeTag.randomAccess)
  postIncReadable := true
  preDecRetSelfRef := true
  postDecRetSelf := true
  derefPostDecSame := true
  diffSignedIntegral := true
  diffIsDifferenceType := true
  addDiffRetSelf := true
  diffAddRetSelf := true
  subDiffRetSelf := true
  plusAssignRetSelfRef := true
  minusAssignRetSelfRef := true
  indexConvertibleCommonRef := true

/-- A concrete transfer world over `Nat` type codes. Codes: `0` = source
iterator `I`, `1` = destination `O`, `2` = projection `P`; `3` = `value_t I`,
`4` = `value_t O`, `5` = `reference_t I`. Every collaborator check holds
except that `reference_t I` (code 5) does not convert to `value_t O`
(code 4). -/
def cexTransferWorld : TransferWorld Nat where
  SemiRegular := fun _ => true
  readableOk := fun _ => true
  value_t := fun t => if t == 0 then 3 else if t == 1 then 4 else 9
  reference_t := fun t => if t == 0 then 5 else 9
  rvalue_reference_t := fun _ => 6
  common_reference_t := fun _ => 7
  rref := fun t => t + 20
  constLref := fun t => t + 40
  Convertible := fun a b => !(a == 5 && b == 4)
  RegularInvokable := fun _ _ => true
  result_t := fun _ a => a
  MoveWritable := fun _ _ => true
  Writable := fun _ _ => true

/-- A concrete invokable world over `Nat` type codes. Codes: `0`, `1` are the
two sources, `2`, `3` their projections, `4` the relation. Projections and
results pass types through (`result_t` is the argument, `result2_t` pairs
its arguments injectively), every invocability and boolean-likeness check
holds, every three-way CommonReference check holds, but no five types share
a common reference. -/
def cexInvokeWorld : InvokeWorld Nat where
  identTy := 99
  value_t := fun t => if t == 0 then 10 else if t == 1 then 13 else 0
  reference_t := fun t => if t == 0 then 11 else if t == 1 then 14 else 0
  common_reference_t := fun t => if t == 0 then 12 else if t == 1 then 15 else 0
  result_t := fun _ a => a
  result2_t := fun _ a b => 100 * a + b
  Invokable1 := fun _ _ => true
  Invokable2 := fun _ _ _ => true
  boolLike := fun _ => true
  CommonReference3 := fun _ _ _ => true
  CommonReference5 := fun _ _ _ _ _ => false

/-- A concrete range world over `Nat` type codes with cursor `0`, sentinel
`1`, common type `2`: every collaborator check holds and subtraction has a
single integral result type (code 50) in both orders. -/
def witRangeWorld : RangeWorld Nat where
  iteratorOk := fun _ => true
  regularOk := fun _ => true
  eqComparable2 := fun _ _ => true
  integralOk := fun _ => true
  sub := fun _ _ => 50
  commonOk := fun _ _ => true
  common_type_t := fun _ _ => some 2

lemma bandL {a b : Bool} (h : (a && b) = true) : a = true :=
  (Bool.and_eq_true a b).mp h |>.left

lemma bandR {a b : Bool} (h : (a && b) = true) : b = true :=
  (Bool.and_eq_true a b).mp h |>.right

lemma randomAccess_to_bidi {t : TypeDesc} (h : RandomAccessIterator t = true) :
    BidirectionalIterator t = true :=
  bandL (bandL (bandL (bandL (bandL (bandL (bandL (bandL (bandL (bandL h)))))))))

lemma bidi_to_forward {t : TypeDesc} (h : BidirectionalIterator t = true) :
    ForwardIterator t = true :=
  bandL (bandL (bandL (bandL h)))

lemma forward_to_input {t : TypeDesc} (h : ForwardIterator t = true) :
    InputIterator t = true :=
  bandL (bandL h)

lemma input_to_weakInput {t : TypeDesc} (h : InputIterator t = true) :
    WeakInputIterator t = true :=
  bandL (bandL (bandL h))

/-- Claim C1: `iterator_concept<T>` tests the five capability definitions in
the strict order RandomAccessIterator, BidirectionalIterator,
ForwardIterator, InputIterator, WeakInputIterator and returns the first one
the descriptor satisfies; when none of the five is satisfied the query has
no result (the C++ instantiation is ill-formed). -/
theorem iterator_concept_first_match (t : TypeDesc) :
    iterator_concept t =
      if RandomAccessIterator t then some IterConcept.randomAccess
      else if BidirectionalIterator t then some IterConcept.bidirectional
      else if ForwardIterator t then some IterConcept.forward
      else if InputIterator t then some IterConcept.input
      else if WeakInputIterator t then some IterConcept.weakInput
      else none := by
  cases h1 : RandomAccessIterator t <;>
    cases h2 : BidirectionalIterator t <;>
      cases h3 : ForwardIterator t <;>
        cases h4 : InputIterator t <;>
          cases h5 : WeakInputIterator t <;>
            simp [iterator_concept, most_refined, List.find?, conceptModels,
              h1, h2, h3, h4, h5]

/-- Claim C4: any descriptor satisfying RandomAccessIterator also satisfies
BidirectionalIterator, ForwardIterator, InputIterator and WeakInputIterator
when each is queried individually, and `iterator_concept` returns the
random-access tier for it, never a weaker one. -/
theorem random_access_implies_weaker_tiers (t : TypeDesc)
    (h : RandomAccessIterator t = true) :
    BidirectionalIterator t = true ∧ ForwardIterator t = true ∧
      InputIterator t = true ∧ WeakInputIterator t = true ∧
      iterator_concept t = some IterConcept.randomAccess := by
  have hb := randomAccess_to_bidi h
  have hf := bidi_to_forward hb
  have hi := forward_to_input hf
  have hw := input_to_weakInput hi
  refine ⟨hb, hf, hi, hw, ?_⟩
  simp [iterator_concept, most_refined, List.find?, conceptModels, h]

/-- Closed witness for claim C4 at the raw-pointer descriptor. -/
theorem random_access_implies_weaker_tiers_witness :
    RandomAccessIterator rawPointerDesc = true ∧
      (BidirectionalIterator rawPointerDesc = true ∧
        ForwardIterator rawPointerDesc = true ∧
        InputIterator rawPointerDesc = true ∧
        WeakInputIterator rawPointerDesc = true ∧
        iterator_concept rawPointerDesc = some IterConcept.randomAccess) :=
  ⟨by decide, random_access_implies_weaker_tiers rawPointerDesc (by decide)⟩

/-- Claim C5: `SinglePass<I>` holds exactly when the descriptor satisfies
WeakInputIterator but not ForwardIterator. -/
theorem single_pass_iff (t : TypeDesc) :
    SinglePass t = true ↔
      (WeakInputIterator t = true ∧ ¬ ForwardIterator t = true) := by
  cases hw : WeakInputIterator t <;> cases hf : ForwardIterator t <;>
    simp [SinglePass, hw, hf]

/-- Claim C2: the native-to-external tag mapping sends the native input tag
to the external input tag regardless of the reference kind; sends the native
forward, bidirectional and random-access tags to the same-named external tag
when the reference type is a genuine (language) reference and to the
external input tag otherwise; and yields no external tag for the native
weak-input tag. -/
theorem as_std_iterator_category_spec (r : QualTy) :
    as_std_iterator_category NativeTag.weakInput r = none ∧
      as_std_iterator_category NativeTag.input r = some StdTag.input ∧
      as_std_iterator_category NativeTag.forward r =
        some (if is_reference r then StdTag.forward else StdTag.input) ∧
      as_std_iterator_category NativeTag.bidirectional r =
        some (if is_reference r then StdTag.bidirectional else StdTag.input) ∧
      as_std_iterator_category NativeTag.randomAccess r =
        some (if is_reference r then StdTag.randomAccess else StdTag.input) := by
  refine ⟨rfl, rfl, ?_, ?_, ?_⟩ <;>
    cases hr : is_reference r <;> simp [as_std_iterator_category, hr]

/-- Counterexample to claim C3 as stated: an input outside the four
recognized external tags is not a compile-time error — the primary template
of `as_ranges_iterator_category` supplies an identity fallback, so the query
has a result (the input itself) rather than none. -/
theorem as_ranges_iterator_category_fallback_cex :
    as_ranges_iterator_category (CxxTy.otherTy 0) = some (CxxTy.otherTy 0) ∧
      ¬ as_ranges_iterator_category (CxxTy.otherTy 0) = none := by
  exact ⟨rfl, by simp [as_ranges_iterator_category]⟩

/-- Claim C3 as amended: the external-to-native mapping is total on every
input; each of the four recognized external tags maps to the same-named
native tag, preserving the refinement order (equal ranks); and any input
outside the four external tags maps to itself (identity fallback) rather
than being a compile-time error. -/
theorem as_ranges_iterator_category_amended :
    (∀ s : StdTag, as_ranges_iterator_category (CxxTy.stdTag s) =
        some (CxxTy.nativeTag (stdToNative s))) ∧
      (∀ s : StdTag, NativeTag.rank (stdToNative s) = StdTag.rank s) ∧
      (∀ n : NativeTag, as_ranges_iterator_category (CxxTy.nativeTag n) =
        some (CxxTy.nativeTag n)) ∧
      (∀ k : Nat, as_ranges_iterator_category (CxxTy.otherTy k) =
        some (CxxTy.otherTy k)) := by
  refine ⟨fun s => ?_, fun s => ?_, fun n => rfl, fun k => rfl⟩ <;> cases s <;> rfl

/-- Counterexample to claim C6 as stated: `IndirectlyCopyable` does not
require the source's reference type to convert to the destination's value
type. In the concrete transfer world, `IndirectlyCopyable` holds of source
`0`, destination `1`, projection `2`, yet `reference_t` of the source does
not convert to `value_t` of the destination. -/
theorem indirectly_copyable_dest_value_cex :
    IndirectlyCopyable cexTransferWorld 0 1 2 = true ∧
      cexTransferWorld.Convertible (cexTransferWorld.reference_t 0)
        (cexTransferWorld.value_t 1) = false := by
  exact ⟨by decide, by decide⟩

/-- Claim C6 as amended: `IndirectlyCopyable<I, O, P>` refines
`IndirectlyMovable` and additionally requires, beyond the projected
writability checks, that the unprojected reference type of the source `I`
converts to the source's own value type `value_t<I>` (so a copy of the read
value can be materialized). -/
theorem indirectly_copyable_refines_movable {τ : Type} (w : TransferWorld τ)
    (I O P : τ) (h : IndirectlyCopyable w I O P = true) :
    IndirectlyMovable w I O P = true ∧
      w.Convertible (w.reference_t I) (w.value_t I) = true := by
  refine ⟨bandL h, ?_⟩
  exact bandR (bandL (bandL (bandL (bandL (bandL (bandL (bandR h)))))))

/-- Closed witness for claim C6 in the concrete transfer world. -/
theorem indirectly_copyable_refines_movable_witness :
    IndirectlyCopyable cexTransferWorld 0 1 2 = true ∧
      (IndirectlyMovable cexTransferWorld 0 1 2 = true ∧
        cexTransferWorld.Convertible (cexTransferWorld.reference_t 0)
          (cexTransferWorld.value_t 0) = true) :=
  ⟨by decide, indirectly_copyable_refines_movable cexTransferWorld 0 1 2 (by decide)⟩

lemma sizedIteratorRange_self {τ : Type} [DecidableEq τ] (w : RangeWorld τ)
    (J : τ) : SizedIteratorRange w J J = SizedIteratorRangeHomog w J := by
  simp [SizedIteratorRange]

/-- Claim C7: whenever `SizedIteratorRange<I, S>` holds, subtracting the pair
in either order yields the same integral distance type, and when `I` and `S`
are different types the pair additionally has a common type `C` (`Common`
holds), with both the homogeneous pair `(I, I)` and the common-type pair
`(C, C)` themselves satisfying `SizedIteratorRange`. -/
theorem sized_iterator_range_spec {τ : Type} [DecidableEq τ]
    (w : RangeWorld τ) (I S : τ) (h : SizedIteratorRange w I S = true) :
    (w.integralOk (w.sub S I) = true ∧ w.sub S I = w.sub I S) ∧
      (I ≠ S →
        w.commonOk I S = true ∧
          SizedIteratorRange w I I = true ∧
          ∃ c, w.common_type_t I S = some c ∧
            SizedIteratorRange w c c = true) := by
  by_cases hIS : I = S
  · subst hIS
    rw [sizedIteratorRange_self] at h
    exact ⟨⟨bandR h, rfl⟩, fun hne => absurd rfl hne⟩
  · unfold SizedIteratorRange at h
    rw [if_neg hIS] at h
    have hsame : w.sub S I = w.sub I S := of_decide_eq_true (bandR h)
    have hint := bandR (bandL h)
    have hmatch := bandR (bandL (bandL h))
    have hcommon := bandR (bandL (bandL (bandL h)))
    have hhomI := bandR (bandL (bandL (bandL (bandL h))))
    refine ⟨⟨hint, hsame⟩, fun _ => ⟨hcommon, ?_, ?_⟩⟩
    · rw [sizedIteratorRange_self]; exact hhomI
    · cases hct : w.common_type_t I S with
      | none => rw [hct] at hmatch; exact absurd hmatch (by simp)
      | some c =>
          rw [hct] at hmatch
          exact ⟨c, rfl, by rw [sizedIteratorRange_self]; exact hmatch⟩

/-- Closed witness for claim C7 in the concrete range world, with cursor `0`
and sentinel `1`. -/
theorem sized_iterator_range_spec_witness :
    SizedIteratorRange witRangeWorld 0 1 = true ∧
      ((witRangeWorld.integralOk (witRangeWorld.sub 1 0) = true ∧
          witRangeWorld.sub 1 0 = witRangeWorld.sub 0 1) ∧
        ((0 : Nat) ≠ 1 →
          witRangeWorld.commonOk 0 1 = true ∧
            SizedIteratorRange witRangeWorld 0 0 = true ∧
            ∃ c, witRangeWorld.common_type_t 0 1 = some c ∧
              SizedIteratorRange witRangeWorld c c = true)) :=
  ⟨by decide, sized_iterator_range_spec witRangeWorld 0 1 (by decide)⟩

/-- Claim C10: when the cursor and sentinel have the same type `I`,
`SizedIteratorRange<I, I>` requires only that the pair satisfies
`IteratorRange` and that the difference has an integral type; the equality
holds for every world, so no symmetric-subtraction or common-type
collaborator fact is consulted in the homogeneous case. -/
theorem sized_iterator_range_homogeneous {τ : Type} [DecidableEq τ]
    (w : RangeWorld τ) (I : τ) :
    SizedIteratorRange w I I =
      (IteratorRange w I I && w.integralOk (w.sub I I)) := by
  simp [SizedIteratorRange, SizedIteratorRangeHomog]

/-- Counterexample to claim C8 as stated: the relation form of the composite
constraint does not require the relation's five result types to share a
common reference type. In the concrete invokable world,
`IndirectInvokableRelation` holds of relation `4` over sources `0`, `1` with
projections `2`, `3`, yet no CommonReference relates the five invocation
results of the relation. -/
theorem indirect_invokable_relation_common_ref_cex :
    IndirectInvokableRelation cexInvokeWorld 4 0 1 2 3 = true ∧
      cexInvokeWorld.CommonReference5
        (cexInvokeWorld.result2_t 4 (cexInvokeWorld.result_t 2 (cexInvokeWorld.value_t 0))
          (cexInvokeWorld.result_t 3 (cexInvokeWorld.value_t 1)))
        (cexInvokeWorld.result2_t 4 (cexInvokeWorld.result_t 2 (cexInvokeWorld.reference_t 0))
          (cexInvokeWorld.result_t 3 (cexInvokeWorld.reference_t 1)))
        (cexInvokeWorld.result2_t 4 (cexInvokeWorld.result_t 2 (cexInvokeWorld.common_reference_t 0))
          (cexInvokeWorld.result_t 3 (cexInvokeWorld.common_reference_t 1)))
        (cexInvokeWorld.result2_t 4 (cexInvokeWorld.result_t 2 (cexInvokeWorld.value_t 0))
          (cexInvokeWorld.result_t 3 (cexInvokeWorld.reference_t 1)))
        (cexInvokeWorld.result2_t 4 (cexInvokeWorld.result_t 2 (cexInvokeWorld.reference_t 0))
          (cexInvokeWorld.result_t 3 (cexInvokeWorld.value_t 1))) = false := by
  exact ⟨by decide, by decide⟩

/-- Claim C8 as amended: the general two-source constraint
`IndirectInvokable2` requires the callable to be invocable on the five
combinations value-value, reference-reference, common-reference-pair,
value-reference and reference-value of the projected read results, and
requires the five invocation result types to share a common reference type;
the relation form `IndirectInvokableRelation` instead requires the relation
check (invocability with a boolean-like result) on the same five
combinations together with each projection satisfying `IndirectInvokable1`
on its own source, and imposes no common-reference requirement across the
relation's own result types. -/
theorem indirect_invokable_two_source_amended {τ : Type} (w : InvokeWorld τ)
    (C I0 I1 P0 P1 : τ) :
    (IndirectInvokable2 w C I0 I1 P0 P1 = true ↔
      (w.Invokable2 C (w.result_t P0 (w.value_t I0))
          (w.result_t P1 (w.value_t I1)) = true ∧
        w.Invokable2 C (w.result_t P0 (w.reference_t I0))
          (w.result_t P1 (w.reference_t I1)) = true ∧
        w.Invokable2 C (w.result_t P0 (w.common_reference_t I0))
          (w.result_t P1 (w.common_reference_t I1)) = true ∧
        w.Invokable2 C (w.result_t P0 (w.value_t I0))
          (w.result_t P1 (w.reference_t I1)) = true ∧
        w.Invokable2 C (w.result_t P0 (w.reference_t I0))
          (w.result_t P1 (w.value_t I1)) = true ∧
        w.CommonReference5
          (w.result2_t C (w.result_t P0 (w.value_t I0))
            (w.result_t P1 (w.value_t I1)))
          (w.result2_t C (w.result_t P0 (w.reference_t I0))
            (w.result_t P1 (w.reference_t I1)))
          (w.result2_t C (w.result_t P0 (w.common_reference_t I0))
            (w.result_t P1 (w.common_reference_t I1)))
          (w.result2_t C (w.result_t P0 (w.value_t I0))
            (w.result_t P1 (w.reference_t I1)))
          (w.result2_t C (w.result_t P0 (w.reference_t I0))
            (w.result_t P1 (w.value_t I1))) = true)) ∧
    (IndirectInvokableRelation w C I0 I1 P0 P1 = true ↔
      (IndirectInvokable1 w P0 I0 w.identTy = true ∧
        IndirectInvokable1 w P1 I1 w.identTy = true ∧
        InvokableRelation w C (w.result_t P0 (w.value_t I0))
          (w.result_t P1 (w.value_t I1)) = true ∧
        InvokableRelation w C (w.result_t P0 (w.reference_t I0))
          (w.result_t P1 (w.reference_t I1)) = true ∧
        InvokableRelation w C (w.result_t P0 (w.common_reference_t I0))
          (w.result_t P1 (w.common_reference_t I1)) = true ∧
        InvokableRelation w C (w.result_t P0 (w.value_t I0))
          (w.result_t P1 (w.reference_t I1)) = true ∧
        InvokableRelation w C (w.result_t P0 (w.reference_t I0))
          (w.result_t P1 (w.value_t I1)) = true)) := by
  constructor
  · simp [IndirectInvokable2, Bool.and_eq_true, and_assoc]
  · simp [IndirectInvokableRelation, Bool.and_eq_true, and_assoc]

/-- Claim C9: the public associated-type extractions `pointer_type<T>` and
`iterator_category_type<T>` strip the top-level reference and cv qualifiers
of `T` and dispatch the detail extraction on the stripped type, so any cv-
or reference-qualified candidate is classified exactly like its unqualified
form. -/
theorem public_extraction_uncvref (q : QualCand) :
    pointer_type q = pointer_type (plainCand (uncvref_t q)) ∧
      iterator_category_type q =
        iterator_category_type (plainCand (uncvref_t q)) ∧
      pointer_type q = detail.pointer_type (uncvref_t q) ∧
      iterator_category_type q = detail.iterator_category_type (uncvref_t q) :=
  ⟨rfl, rfl, rfl, rfl⟩
